import Mathlib

/-!
# Verification of the `market` trade-signal dispatch pipeline

Shallow embedding of the repository `alloc33/market` (Rust).  The embedded
source files are:

* `src/market/src/strategy_manager/mod.rs` — `Strategy`, `StrategyManager`,
  `find_strategy`, `handle_event` (whose retry loop is present only as
  disabled/commented code), `Order`, `StrategyManagerError`, and the
  `TradingClient` trait.
* `src/market/src/api/handlers.rs` — `receive_webhook_alert` and the
  read-only query handlers (`get_account`, `get_asset`, `get_assets`,
  `get_orders`, `get_order`, `get_positions`).

Modules that the repository declares or calls but whose files are not in the
source tree (`api/alert.rs` with `TradeSignal::from_alert_data`, `events.rs`
with `HandleEventError`, `trade_error.rs` with `TradeError`, the
`process_trade_signal` executor and the `api/objects.rs` payload types) are
modelled from the specification; each such definition carries a doc comment
saying so.

Machine integers: `max_event_retries` is a `u8` in the source; the retry
counter never exceeds it, so no wrap-around can occur and plain `Nat` is an
exact model.  The `f64` retry delay is never computed with — only stored and
passed to `sleep` — so it is modelled as an exact `Rat` value.
-/

/-- Rust `uuid::Uuid`, modelled as a wrapped natural number; the only operations
the embedded code performs on it are equality tests and `to_string`. -/
structure Uuid where
  val : Nat
deriving DecidableEq, Repr

/-- Stand-in for `Uuid::to_string` (only used to build error messages). -/
def Uuid.toStr (u : Uuid) : String :=
  toString u.val

/-- Decidable equality of `Except` results (needed to evaluate concrete
handler outcomes). -/
instance {ε α : Type _} [DecidableEq ε] [DecidableEq α] : DecidableEq (Except ε α) :=
  fun x y =>
    match x, y with
    | Except.ok a, Except.ok b =>
        if h : a = b then isTrue (by rw [h])
        else isFalse (by intro hc; injection hc; contradiction)
    | Except.ok _, Except.error _ => isFalse (by intro hc; cases hc)
    | Except.error _, Except.ok _ => isFalse (by intro hc; cases hc)
    | Except.error a, Except.error b =>
        if h : a = b then isTrue (by rw [h])
        else isFalse (by intro hc; injection hc; contradiction)

/-- Modelled from the spec: `api::objects::Broker` / `strategy_manager::broker::Broker`
(the `broker` module file is absent from the source tree); the spec (§4.1, §9)
and both call sites show a single `Alpaca` variant. -/
inductive Broker where
  | alpaca
deriving DecidableEq, Repr

/-- Bar payload of an alert (`alert_data.bar` in `receive_webhook_alert`).
Fixed-precision decimals are modelled as `Int`; no arithmetic is done on
them anywhere in the embedded code.  The source field `open` is a Lean
keyword, hence `open_`. -/
structure BarData where
  time : Nat
  open_ : Int
  high : Int
  low : Int
  close : Int
  volume : Nat
deriving DecidableEq, Repr

/-- Modelled from the spec: the alert-kind enum, whose source file is absent;
§3 gives "alert_type (enum: e.g. Entry/Exit/Scale)". -/
inductive AlertType where
  | entry
  | exitKind
  | scale
deriving DecidableEq, Repr

/-- Modelled from the spec: `api::alert::AlertData` / `alert::WebhookAlertData`
(the file `api/alert.rs` is absent from the source tree), from §3 and from the
fields read by `receive_webhook_alert`'s INSERT: ticker, timeframe, exchange,
alert_type, bar OHLCV, fire time, strategy id. -/
structure AlertData where
  strategy_id : Uuid
  ticker : String
  timeframe : String
  exchange : String
  alert_type : AlertType
  bar : BarData
  time : Nat
deriving DecidableEq, Repr

/-- Source type `strategy_manager::Strategy` (from `strategy_manager/mod.rs`): id, name,
enabled flag, broker tag, retry bound (`u8`, modelled as `Nat`), retry delay
(`f64` seconds, modelled as an exact `Rat`). -/
structure Strategy where
  id : Uuid
  name : String
  enabled : Bool
  broker : Broker
  max_event_retries : Nat
  event_retry_delay : Rat
deriving DecidableEq

/-- Source type `strategy_manager::Order` (from `strategy_manager/mod.rs`): just an id. -/
structure Order where
  id : Uuid
deriving DecidableEq, Repr

/-- Source type `strategy_manager::StrategyManagerError`.  The config/client payloads are
external-library error values the embedded code never inspects, so they are
carried as strings. -/
inductive StrategyManagerError where
  | configError (msg : String)
  | alpacaClientError (msg : String)
  | unknownStrategy (id : String)
  | unknownExchange (name : String)
deriving DecidableEq, Repr

/-- Modelled from the spec: `trade_error::TradeError` — `trade_error.rs` is
declared (`pub mod trade_error;`) but absent from the source tree.  The
embedded code uses `MaxRetriesReached(order)` (handle_event's disabled loop);
broker-side execution failures (§4.1 `BrokerError`) are a second variant. -/
inductive TradeError where
  | maxRetriesReached (order : Order)
  | brokerError (msg : String)
deriving DecidableEq, Repr

/-- Modelled from the spec: `events::HandleEventError` — `events.rs` is
absent from the source tree; `handle_event` converts both
`StrategyManagerError` and `TradeError` into it via `.into()`. -/
inductive HandleEventError where
  | strategyManager (e : StrategyManagerError)
  | trade (e : TradeError)
deriving DecidableEq, Repr

/-- Source type `strategy_manager::StrategyManager`.  Only the strategy table is
relevant to the embedded behaviour; the Alpaca client handle, app state and
trade executor are external resources carried opaquely by the source. -/
structure StrategyManager where
  strategies : List Strategy

/-- Source function `StrategyManager::find_strategy`:
`self.strategies.iter().find(|strategy| strategy.id == strategy_id)`. -/
def StrategyManager.find_strategy (m : StrategyManager) (strategy_id : Uuid) :
    Option Strategy :=
  m.strategies.find? (fun strategy => strategy.id == strategy_id)

/-- Observable side effects of the dispatch/execution path: order creation,
order submission (`execute_order`), and the retry sleep. -/
inductive TraceEvent where
  | createOrder (o : Order)
  | executeOrder (o : Order)
  | sleep (d : Rat)
deriving DecidableEq, Repr

/-- Source function `StrategyManager::handle_event` exactly as it is live in the source:
the retry loop is commented out, so a found strategy yields `Ok(())` with no
side effects and an unknown strategy yields `UnknownStrategy`.  The trace
records every order creation, broker call and sleep (none occur). -/
def StrategyManager.handle_event (m : StrategyManager) (event : AlertData) :
    Except HandleEventError Unit × List TraceEvent :=
  match m.find_strategy event.strategy_id with
  | some _strategy => (Except.ok (), [])
  | none =>
      (Except.error (HandleEventError.strategyManager
        (StrategyManagerError.unknownStrategy event.strategy_id.toStr)), [])

/-- A `TradingClient` implementation (the trait from
`strategy_manager/mod.rs`), restricted to the two operations the dispatch
path uses: `create_order` (pure construction, deterministic — spec §4.1) and
`execute_order`, whose outcome is a per-call schedule: `execute_result i`
tells whether the `i`-th `execute_order` call (1-indexed) succeeds. -/
structure TradingClientModel where
  create_order : AlertData → Order
  execute_result : Nat → Bool

/-- The broker stub of the spec's testable properties (§8): fails exactly
`k` times, then succeeds on every later call. -/
def stubClient (co : AlertData → Order) (k : Nat) : TradingClientModel :=
  { create_order := co, execute_result := fun i => decide (k < i) }

/-- Modelled from the spec: the retry loop of §4.5, absent from the live
source — it survives only as the disabled/commented body of
`StrategyManager::handle_event` (`process_trade_signal` / the
`TradeExecutor` engine is not under the source tree).  The commented source
is

    let mut retries = 0;
    loop:
        if execute_order(&order).is_ok(): return Ok(())
        retries += 1;
        if retries >= strategy.max_event_retries:
            return Err(TradeError::MaxRetriesReached(order).into())
        sleep(strategy.event_retry_delay)

which matches §4.5's counter semantics exactly.  Here `r` is the number of
failed calls so far (`retries`) and `rem` the number of further failed calls
still allowed before the `retries >= max_event_retries` exit fires; the top
level starts at `r = 0`, `rem = max_event_retries - 1`, so that the loop
stops failing at `retries = r + 1 ≥ max_event_retries` exactly when
`rem = 0`.  Structural recursion on `rem` keeps the model kernel-reducible. -/
def executeLoop (outcome : Nat → Bool) (d : Rat) (o : Order) :
    Nat → Nat → Except TradeError Unit × List TraceEvent
  | r, rem =>
    if outcome (r + 1) then
      (Except.ok (), [TraceEvent.executeOrder o])
    else
      match rem with
      | 0 => (Except.error (TradeError.maxRetriesReached o),
          [TraceEvent.executeOrder o])
      | rem' + 1 =>
          let rest := executeLoop outcome d o (r + 1) rem'
          (rest.1, TraceEvent.executeOrder o :: TraceEvent.sleep d :: rest.2)

/-- Modelled from the spec: one full execution of a trade signal (§4.5) —
create the order once via the client, then run the retry loop with the
strategy's `max_event_retries` and `event_retry_delay`.  `Nat` subtraction
gives `max_event_retries - 1 = 0` for a zero retry bound, matching the
source loop's behaviour of always making at least one attempt. -/
def execute_trade_signal (client : TradingClientModel) (strategy : Strategy)
    (event : AlertData) : Except TradeError Unit × List TraceEvent :=
  let order := client.create_order event
  let run := executeLoop client.execute_result strategy.event_retry_delay order
    0 (strategy.max_event_retries - 1)
  (run.1, TraceEvent.createOrder order :: run.2)

/-- Modelled from the spec: `handle_event` as it would behave with the
disabled retry loop enabled — resolve the strategy, then run
`execute_trade_signal`; an unresolved strategy id fails with
`UnknownStrategy` exactly as in the live code. -/
def handle_event_full (m : StrategyManager) (client : TradingClientModel)
    (event : AlertData) : Except HandleEventError Unit × List TraceEvent :=
  match m.find_strategy event.strategy_id with
  | some strategy =>
      let run := execute_trade_signal client strategy event
      (run.1.mapError HandleEventError.trade, run.2)
  | none =>
      (Except.error (HandleEventError.strategyManager
        (StrategyManagerError.unknownStrategy event.strategy_id.toStr)), [])

/-- Number of `execute_order` calls recorded in a trace. -/
def execCount (tr : List TraceEvent) : Nat :=
  tr.countP (fun e => match e with
    | TraceEvent.executeOrder _ => true
    | _ => false)

/-- The trace of a retry loop that makes `m + 1` execution attempts on one
order `o`, sleeping `d` between consecutive attempts. -/
def retryTrace (o : Order) (d : Rat) : Nat → List TraceEvent
  | 0 => [TraceEvent.executeOrder o]
  | m + 1 => TraceEvent.executeOrder o :: TraceEvent.sleep d :: retryTrace o d m

/-- Modelled from the spec: the errors of `TradeSignal::from_alert_data` —
`api/alert.rs` is absent from the source tree; §4.3 names the two failure
modes. -/
inductive SignalError where
  | unknownStrategy (id : Uuid)
  | strategyDisabled (id : Uuid)
deriving DecidableEq, Repr

/-- Modelled from the spec: `api::alert::TradeSignal` (file absent from the
source tree), the validated alert bound to its resolved strategy (§3); `receive_webhook_alert` reads
`trade_signal.strategy.broker`. -/
structure TradeSignal where
  alert : AlertData
  strategy : Strategy
deriving DecidableEq

/-- Modelled from the spec: `TradeSignal::from_alert_data` (§4.3), whose
source file `api/alert.rs` is absent from the source tree.  Looks the
strategy up by the alert's strategy id; fails with `UnknownStrategy` when
none exists and with `StrategyDisabled` when it exists but is disabled. -/
def TradeSignal.from_alert_data (alert : AlertData) (strategies : List Strategy) :
    Except SignalError TradeSignal :=
  match strategies.find? (fun s => s.id == alert.strategy_id) with
  | none => Except.error (SignalError.unknownStrategy alert.strategy_id)
  | some s =>
      if s.enabled then Except.ok { alert := alert, strategy := s }
      else Except.error (SignalError.strategyDisabled alert.strategy_id)

/-- Modelled from the spec: `api::error::ApiError` — `api/error.rs` is
absent from the source tree.  `receive_webhook_alert` builds one from a
signal-construction error (the `?` on `from_alert_data`) or from a database
error (the `?` on the INSERT); query handlers propagate broker errors. -/
inductive ApiError where
  | signal (e : SignalError)
  | database (msg : String)
  | broker (msg : String)
deriving DecidableEq, Repr

/-- Environment of one `receive_webhook_alert` call: the configured strategy
table consulted by signal construction, the resolved broker client used by
the spawned dispatch task, and whether the durable INSERT succeeds. -/
structure IngestEnv where
  strategies : List Strategy
  client : TradingClientModel
  insert_ok : Bool

/-- Observable outcome of one `receive_webhook_alert` call: the HTTP
response, whether a background dispatch task was spawned, the side effects
that task performs (via the modelled executor), and the durably recorded
alert row, if any. -/
structure IngestOutcome where
  response : Except ApiError (Nat × Unit)
  dispatched : Bool
  dispatch_trace : List TraceEvent
  recorded : Option AlertData

/-- Source function `receive_webhook_alert` (from `api/handlers.rs`), with the source's
control flow kept in order: (1) `TradeSignal::from_alert_data` — on error
the handler returns at once, with no dispatch and no recording; (2)
`tokio::spawn(process_trade_signal(client, trade_signal))` — the dispatch
task is scheduled here, BEFORE the insert; (3) the INSERT INTO alerts — on
error the handler responds with a failure status but the task from (2) is
already spawned; (4) the `201 Created` response.  The spawned task's body is
the spec-modelled executor `execute_trade_signal`, since
`process_trade_signal` is not under the source tree; the single-variant
broker match resolving `app.clients.alpaca` is folded into `env.client`. -/
def receive_webhook_alert (env : IngestEnv) (alert_data : AlertData) :
    IngestOutcome :=
  match TradeSignal.from_alert_data alert_data env.strategies with
  | Except.error e =>
      { response := Except.error (ApiError.signal e)
        dispatched := false
        dispatch_trace := []
        recorded := none }
  | Except.ok trade_signal =>
      let spawned := execute_trade_signal env.client trade_signal.strategy
        trade_signal.alert
      if env.insert_ok then
        { response := Except.ok (201, ())
          dispatched := true
          dispatch_trace := spawned.2
          recorded := some alert_data }
      else
        { response := Except.error (ApiError.database "insert failed")
          dispatched := true
          dispatch_trace := spawned.2
          recorded := none }

/-- Modelled from the spec: `api::objects::Account`, an opaque payload carrier
(the `api/objects.rs` module is absent from the source tree and the handlers
never inspect it). -/
structure Account where
  data : Int
deriving DecidableEq, Repr

/-- Modelled from the spec: `api::objects::Asset`, an opaque payload carrier. -/
structure Asset where
  symbol : String
deriving DecidableEq, Repr

/-- Modelled from the spec: `api::objects::AssetClass`, a query tag whose
variants are opaque to the handlers. -/
inductive AssetClass where
  | usEquity
  | crypto
deriving DecidableEq, Repr

/-- Modelled from the spec: `api::objects::Order` (the broker-side order payload returned by the
query surface; distinct from `strategy_manager::Order`). -/
structure ApiOrder where
  id : Uuid
deriving DecidableEq, Repr

/-- Modelled from the spec: the position payload returned by `get_positions` on the broker client. -/
structure Position where
  symbol : String
deriving DecidableEq, Repr

/-- Modelled from the spec: `apca::api::v2::orders::OrdersReq`, an opaque
request carrier from the external broker library. -/
structure OrdersReq where
  status : String
deriving DecidableEq, Repr

/-- Modelled from the spec: `api::objects::BrokerOrders`, the request body of
`get_orders`. -/
inductive BrokerOrders where
  | alpacaOrders (req : OrdersReq)
deriving DecidableEq, Repr

/-- Source type `BrokerQuery` (from `api/handlers.rs`). -/
structure BrokerQuery where
  broker : Broker
deriving DecidableEq, Repr

/-- Source type `AssetTypeQuery` (from `api/handlers.rs`); the source field `class` is a
Lean keyword, hence `class_`. -/
structure AssetTypeQuery where
  class_ : AssetClass
deriving DecidableEq, Repr

/-- Source type `SymbolQuery` (from `api/handlers.rs`). -/
structure SymbolQuery where
  symbol : String
deriving DecidableEq, Repr

/-- The read-only operations of `clients::BrokerClient` used by the query
handlers, as result values of one concrete call environment (each field is
the result the client would return for that request). -/
structure BrokerClientOps where
  account_result : Except ApiError Account
  asset_result : String → Except ApiError Asset
  assets_result : AssetClass → Except ApiError (List Asset)
  order_result : Uuid → Except ApiError ApiOrder
  orders_result : OrdersReq → Except ApiError (List ApiOrder)
  positions_result : Except ApiError (List Position)

/-- The app state reachable from the query handlers: the broker client set
(currently the single Alpaca client). -/
structure AppModel where
  clients_alpaca : BrokerClientOps

/-- Modelled from the spec: `GetBroker::get_client` (from the absent
`api/objects.rs`) resolves the enum tag to a client handle. -/
def Broker.get_client (b : Broker) (app : AppModel) : BrokerClientOps :=
  match b with
  | Broker.alpaca => app.clients_alpaca

/-- Source function `get_account` (from `api/handlers.rs`). -/
def get_account (app : AppModel) (broker_query : BrokerQuery) :
    Except ApiError (Nat × Account) := do
  let client := broker_query.broker.get_client app
  let account ← client.account_result
  return (200, account)

/-- Rust `str::to_uppercase`, modelled as a per-character upper-casing (exact
for the ASCII symbols at issue; the embedded code applies it only to asset
symbols). -/
def toUppercase (s : String) : String :=
  ⟨s.data.map Char.toUpper⟩

/-- Source function `get_asset` (from `api/handlers.rs`): note the source uppercases the
symbol before forwarding: `client.get_asset(symbol.symbol.to_uppercase())`. -/
def get_asset (app : AppModel) (broker_query : BrokerQuery)
    (symbol : SymbolQuery) : Except ApiError (Nat × Asset) := do
  let client := broker_query.broker.get_client app
  let asset ← client.asset_result (toUppercase symbol.symbol)
  return (200, asset)

/-- Source function `get_assets` (from `api/handlers.rs`). -/
def get_assets (app : AppModel) (broker_query : BrokerQuery)
    (asset_type : AssetTypeQuery) : Except ApiError (Nat × List Asset) := do
  let client := broker_query.broker.get_client app
  let assets ← client.assets_result asset_type.class_
  return (200, assets)

/-- Source function `get_orders` (from `api/handlers.rs`). -/
def get_orders (app : AppModel) (broker_orders : BrokerOrders) :
    Except ApiError (Nat × List ApiOrder) :=
  match broker_orders with
  | BrokerOrders.alpacaOrders req => do
      let orders ← app.clients_alpaca.orders_result req
      return (200, orders)

/-- Source function `get_order` (from `api/handlers.rs`). -/
def get_order (app : AppModel) (broker_query : BrokerQuery) (id : Uuid) :
    Except ApiError (Nat × ApiOrder) := do
  let client := broker_query.broker.get_client app
  let order ← client.order_result id
  return (200, order)

/-- Source function `get_positions` exactly as in the source: the bound query (and hence the
client) is never consulted; the handler returns `Ok((StatusCode::OK,
Json::default()))` unconditionally. -/
def get_positions (_app : AppModel) (_query : BrokerQuery) :
    Except ApiError (Nat × Unit) :=
  Except.ok (200, ())

/-- Success/failure tag of an `Except` result (used to state when the
ingestion handler schedules a dispatch task). -/
def resultOk {ε α : Type _} : Except ε α → Bool
  | Except.ok _ => true
  | Except.error _ => false

/-! ## Helper lemmas about the retry loop -/

/-- Shape of a retry loop's event trace on one order `o` with configured
delay `d`: one `execute_order` call, or an `execute_order` call followed by
exactly one sleep of duration `d` and the trace of the remaining attempts.
In particular, every pair of consecutive execution attempts is separated by
exactly one sleep of the configured delay. -/
inductive RetryShape (o : Order) (d : Rat) : List TraceEvent → Prop
  | last : RetryShape o d [TraceEvent.executeOrder o]
  | step (tr : List TraceEvent) : RetryShape o d tr →
      RetryShape o d (TraceEvent.executeOrder o :: TraceEvent.sleep d :: tr)

theorem retryTrace_shape (o : Order) (d : Rat) : ∀ m, RetryShape o d (retryTrace o d m)
  | 0 => RetryShape.last
  | m + 1 => RetryShape.step _ (retryTrace_shape o d m)

theorem RetryShape.exec_eq {o : Order} {d : Rat} {tr : List TraceEvent}
    (h : RetryShape o d tr) :
    ∀ o', TraceEvent.executeOrder o' ∈ tr → o' = o := by
  induction h with
  | last =>
      intro o' h'
      simp only [List.mem_singleton] at h'
      injection h' with h2
  | step tr htr ih =>
      intro o' h'
      simp only [List.mem_cons] at h'
      rcases h' with h' | h' | h'
      · injection h' with h2
      · exact TraceEvent.noConfusion h'
      · exact ih o' h'

theorem RetryShape.sleep_eq {o : Order} {d : Rat} {tr : List TraceEvent}
    (h : RetryShape o d tr) :
    ∀ d', TraceEvent.sleep d' ∈ tr → d' = d := by
  induction h with
  | last =>
      intro d' h'
      simp only [List.mem_singleton] at h'
      exact TraceEvent.noConfusion h'
  | step tr htr ih =>
      intro d' h'
      simp only [List.mem_cons] at h'
      rcases h' with h' | h' | h'
      · exact TraceEvent.noConfusion h'
      · injection h' with h2
      · exact ih d' h'

theorem RetryShape.no_create {o : Order} {d : Rat} {tr : List TraceEvent}
    (h : RetryShape o d tr) :
    ∀ o', TraceEvent.createOrder o' ∉ tr := by
  induction h with
  | last =>
      intro o' h'
      simp only [List.mem_singleton] at h'
      exact TraceEvent.noConfusion h'
  | step tr htr ih =>
      intro o' h'
      simp only [List.mem_cons] at h'
      rcases h' with h' | h' | h'
      · exact TraceEvent.noConfusion h'
      · exact TraceEvent.noConfusion h'
      · exact ih o' h'

theorem RetryShape.head_exec {o : Order} {d : Rat} {tr : List TraceEvent}
    (h : RetryShape o d tr) :
    TraceEvent.executeOrder o ∈ tr := by
  cases h with
  | last => simp
  | step tr htr => simp

theorem execCount_nil : execCount [] = 0 := rfl

theorem execCount_cons_exec (o : Order) (tr : List TraceEvent) :
    execCount (TraceEvent.executeOrder o :: tr) = execCount tr + 1 := by
  simp [execCount]

theorem execCount_cons_create (o : Order) (tr : List TraceEvent) :
    execCount (TraceEvent.createOrder o :: tr) = execCount tr := by
  simp [execCount]

theorem execCount_cons_sleep (d : Rat) (tr : List TraceEvent) :
    execCount (TraceEvent.sleep d :: tr) = execCount tr := by
  simp [execCount]

theorem execCount_retryTrace (o : Order) (d : Rat) :
    ∀ m, execCount (retryTrace o d m) = m + 1 := by
  intro m
  induction m with
  | zero => rfl
  | succ m ih =>
      simp only [retryTrace, execCount_cons_exec, execCount_cons_sleep, ih]

/-- The retry loop, run against the stub that fails exactly `k` times, when
enough retry budget remains to reach the first success: starting with `r`
failures consumed and `f = k - r` further failures to survive, it succeeds
after `f + 1` further attempts. -/
theorem executeLoop_stub_success (k : Nat) (d : Rat) (o : Order) :
    ∀ f r rem, k = r + f → f ≤ rem →
      executeLoop (fun i => decide (k < i)) d o r rem =
        (Except.ok (), retryTrace o d f) := by
  intro f
  induction f with
  | zero =>
      intro r rem hk _
      have hlt : k < r + 1 := by omega
      rw [executeLoop.eq_def]
      simp [hlt, retryTrace]
  | succ f ih =>
      intro r rem hk hrem
      have hnlt : ¬ k < r + 1 := by omega
      rcases rem with _ | rem'
      · omega
      · have ihh := ih (r + 1) rem' (by omega) (by omega)
        rw [executeLoop.eq_def]
        simp [hnlt, ihh, retryTrace]

/-- The retry loop, run against the stub that fails exactly `k` times, when
the retry budget is exhausted before the first success: with `rem` further
failed attempts allowed and more than `rem` failures still ahead, it reports
`MaxRetriesReached` after `rem + 1` further attempts. -/
theorem executeLoop_stub_fail (k : Nat) (d : Rat) (o : Order) :
    ∀ rem r, r + rem < k →
      executeLoop (fun i => decide (k < i)) d o r rem =
        (Except.error (TradeError.maxRetriesReached o), retryTrace o d rem) := by
  intro rem
  induction rem with
  | zero =>
      intro r hr
      have hnlt : ¬ k < r + 1 := by omega
      rw [executeLoop.eq_def]
      simp [hnlt, retryTrace]
  | succ rem ih =>
      intro r hr
      have hnlt : ¬ k < r + 1 := by omega
      have ihh := ih (r + 1) (by omega)
      rw [executeLoop.eq_def]
      simp [hnlt, ihh, retryTrace]

/-- The trace of the retry loop always has the alternating
execute/sleep/execute shape, for any outcome schedule. -/
theorem executeLoop_shape (outcome : Nat → Bool) (d : Rat) (o : Order) :
    ∀ rem r, RetryShape o d (executeLoop outcome d o r rem).2 := by
  intro rem
  induction rem with
  | zero =>
      intro r
      rw [executeLoop.eq_def]
      by_cases h : outcome (r + 1) = true
      · simp only [h, if_true]
        exact RetryShape.last
      · simp only [h, if_false, Bool.false_eq_true]
        exact RetryShape.last
  | succ rem ih =>
      intro r
      rw [executeLoop.eq_def]
      by_cases h : outcome (r + 1) = true
      · simp only [h, if_true]
        exact RetryShape.last
      · simp only [h, if_false, Bool.false_eq_true]
        exact RetryShape.step _ (ih (r + 1))

/-! ## Concrete fixtures used by counterexamples and witnesses -/

def uuidAlpha : Uuid := ⟨1⟩

def uuidDis : Uuid := ⟨2⟩

def uuidDup : Uuid := ⟨7⟩

def uuidMissing : Uuid := ⟨99⟩

def barSample : BarData :=
  { time := 0, open_ := 150, high := 151, low := 149, close := 150, volume := 10000 }

def mkAlert (sid : Uuid) : AlertData :=
  { strategy_id := sid, ticker := "AAPL", timeframe := "1h", exchange := "NASDAQ"
    alert_type := AlertType.entry, bar := barSample, time := 0 }

def strategyAlpha : Strategy :=
  { id := uuidAlpha, name := "alpha", enabled := true, broker := Broker.alpaca
    max_event_retries := 1, event_retry_delay := 1 }

def strategyDis : Strategy :=
  { id := uuidDis, name := "disabled-strategy", enabled := false, broker := Broker.alpaca
    max_event_retries := 1, event_retry_delay := 1 }

def strategyWit : Strategy :=
  { id := uuidAlpha, name := "alpha", enabled := true, broker := Broker.alpaca
    max_event_retries := 2, event_retry_delay := 1 }

def orderFixed : Order := ⟨⟨42⟩⟩

def mkOrderFixed : AlertData → Order := fun _ => orderFixed

def mgrOne : StrategyManager := ⟨[strategyAlpha]⟩

def mgrWit : StrategyManager := ⟨[strategyWit]⟩

def clientStub1 : TradingClientModel := stubClient mkOrderFixed 1

def envInsertFail : IngestEnv :=
  { strategies := [strategyAlpha], client := clientStub1, insert_ok := false }

def envDisabled : IngestEnv :=
  { strategies := [strategyDis], client := clientStub1, insert_ok := true }

/-! ## Claim theorems -/

/-- C1 (counterexample): the claim states that with a broker stub failing
exactly `k` times and `max_retries = n`, `k ≤ n` yields success after
`k + 1` attempts.  At `k = 1`, `n = 1` (strategy `strategyAlpha`) the
modelled engine instead stops with `MaxRetriesReached` after a single
attempt, refuting the claim's instance. -/
theorem C1_retry_bound_counterexample :
    ¬ ((1 : Nat) ≤ strategyAlpha.max_event_retries →
        (handle_event_full mgrOne (stubClient mkOrderFixed 1) (mkAlert uuidAlpha)).1 =
          Except.ok () ∧
        execCount (handle_event_full mgrOne (stubClient mkOrderFixed 1)
          (mkAlert uuidAlpha)).2 = 1 + 1) := by
  intro h
  have h2 := h (by decide)
  have hres : (handle_event_full mgrOne (stubClient mkOrderFixed 1) (mkAlert uuidAlpha)).1 =
      Except.error (HandleEventError.trade (TradeError.maxRetriesReached orderFixed)) := rfl
  rw [hres] at h2
  exact Except.noConfusion h2.1

/-- C1 (amended): for a resolved strategy with `max_event_retries = n` and a
broker stub failing exactly `k` times then succeeding, the modelled retry
engine succeeds after `k + 1` attempts when `k = 0` or `k < n`, and stops
with `MaxRetriesReached` after exactly `max n 1` attempts when `1 ≤ k` and
`n ≤ k` (the source counts `max_event_retries` as total attempts, not as
additional attempts after the first). -/
theorem C1_retry_bound_amended (m : StrategyManager) (co : AlertData → Order)
    (event : AlertData) (strategy : Strategy) (k : Nat)
    (hfind : m.find_strategy event.strategy_id = some strategy) :
    ((k = 0 ∨ k < strategy.max_event_retries) →
      (handle_event_full m (stubClient co k) event).1 = Except.ok () ∧
      execCount (handle_event_full m (stubClient co k) event).2 = k + 1) ∧
    ((1 ≤ k ∧ strategy.max_event_retries ≤ k) →
      (handle_event_full m (stubClient co k) event).1 =
        Except.error (HandleEventError.trade (TradeError.maxRetriesReached (co event))) ∧
      execCount (handle_event_full m (stubClient co k) event).2 =
        max strategy.max_event_retries 1) := by
  constructor
  · intro hk
    have hrun := executeLoop_stub_success k strategy.event_retry_delay (co event)
      k 0 (strategy.max_event_retries - 1) (by omega) (by omega)
    constructor
    · simp [handle_event_full, hfind, execute_trade_signal, stubClient, hrun,
        Except.mapError]
    · simp [handle_event_full, hfind, execute_trade_signal, stubClient, hrun,
        execCount_cons_create, execCount_retryTrace]
  · intro hk
    have hrun := executeLoop_stub_fail k strategy.event_retry_delay (co event)
      (strategy.max_event_retries - 1) 0 (by omega)
    constructor
    · simp [handle_event_full, hfind, execute_trade_signal, stubClient, hrun,
        Except.mapError]
    · have hmax : strategy.max_event_retries - 1 + 1 = max strategy.max_event_retries 1 := by
        omega
      simp [handle_event_full, hfind, execute_trade_signal, stubClient, hrun,
        execCount_cons_create, execCount_retryTrace, hmax]

/-- C1 (witness): with `max_event_retries = 2` and a stub failing once, the
amended theorem yields success after two attempts. -/
theorem C1_retry_bound_witness :
    (handle_event_full mgrWit (stubClient mkOrderFixed 1) (mkAlert uuidAlpha)).1 =
      Except.ok () ∧
    execCount (handle_event_full mgrWit (stubClient mkOrderFixed 1)
      (mkAlert uuidAlpha)).2 = 1 + 1 :=
  (C1_retry_bound_amended mgrWit mkOrderFixed (mkAlert uuidAlpha) strategyWit 1 rfl).1
    (Or.inr (by decide))

/-- C4: when no configured strategy matches the alert's strategy id,
`handle_event` fails with `UnknownStrategy` and performs no side effect (no
order creation, no broker call); the same holds for the modelled engine with
the retry loop enabled, for every client. -/
theorem C4_unknown_strategy (m : StrategyManager) (event : AlertData)
    (h : m.find_strategy event.strategy_id = none) :
    m.handle_event event =
      (Except.error (HandleEventError.strategyManager
        (StrategyManagerError.unknownStrategy event.strategy_id.toStr)), []) ∧
    (∀ client : TradingClientModel,
      handle_event_full m client event =
        (Except.error (HandleEventError.strategyManager
          (StrategyManagerError.unknownStrategy event.strategy_id.toStr)), [])) := by
  constructor
  · simp [StrategyManager.handle_event, h]
  · intro client
    simp [handle_event_full, h]

/-- C4 (witness): a concrete manager knowing only `uuidAlpha` rejects an
alert for `uuidMissing`. -/
theorem C4_unknown_strategy_witness :
    mgrOne.handle_event (mkAlert uuidMissing) =
      (Except.error (HandleEventError.strategyManager
        (StrategyManagerError.unknownStrategy (mkAlert uuidMissing).strategy_id.toStr)), []) :=
  (C4_unknown_strategy mgrOne (mkAlert uuidMissing) rfl).1

/-- C5: when some configured strategy matches the alert's strategy id, the
live `handle_event` returns `Ok(())` with an empty side-effect trace: no
order is created, no client operation is called and no sleep happens. -/
theorem C5_known_strategy_noop (m : StrategyManager) (event : AlertData)
    (s : Strategy) (h : m.find_strategy event.strategy_id = some s) :
    m.handle_event event = (Except.ok (), []) := by
  simp [StrategyManager.handle_event, h]

/-- C5 (witness): the concrete manager with `strategyAlpha` acknowledges an
alert for `uuidAlpha` as a no-op. -/
theorem C5_known_strategy_noop_witness :
    mgrOne.handle_event (mkAlert uuidAlpha) = (Except.ok (), []) :=
  C5_known_strategy_noop mgrOne (mkAlert uuidAlpha) strategyAlpha rfl

/-- C2 (counterexample): in the concrete environment `envInsertFail` the
durable insert fails, the handler correctly answers with a failure status —
but the background dispatch task has already been scheduled, refuting the
claim that no dispatch task is scheduled when recording fails. -/
theorem C2_record_before_dispatch_counterexample :
    envInsertFail.insert_ok = false ∧
    (receive_webhook_alert envInsertFail (mkAlert uuidAlpha)).response =
      Except.error (ApiError.database "insert failed") ∧
    (receive_webhook_alert envInsertFail (mkAlert uuidAlpha)).recorded = none ∧
    (receive_webhook_alert envInsertFail (mkAlert uuidAlpha)).dispatched = true :=
  ⟨rfl, rfl, rfl, rfl⟩

/-- C2 (amended): when durable recording fails the ingestion handler does
return a failure status, but a dispatch task has already been scheduled:
the handler spawns the dispatch task before the insert, so a task is
scheduled exactly when `TradeSignal` construction succeeds, independent of
the recording outcome. -/
theorem C2_record_before_dispatch_amended (env : IngestEnv) (alert : AlertData) :
    (env.insert_ok = false →
      ∀ r, (receive_webhook_alert env alert).response ≠ Except.ok r) ∧
    (receive_webhook_alert env alert).dispatched =
      resultOk (TradeSignal.from_alert_data alert env.strategies) := by
  constructor
  · intro hfail r
    unfold receive_webhook_alert
    cases hfa : TradeSignal.from_alert_data alert env.strategies with
    | error e => simp
    | ok sig => simp [hfail]
  · unfold receive_webhook_alert
    cases hfa : TradeSignal.from_alert_data alert env.strategies with
    | error e => simp [resultOk]
    | ok sig => cases h : env.insert_ok <;> simp [h, resultOk]

/-- C2 (witness): the amended theorem applied to the concrete failing-insert
environment. -/
theorem C2_record_before_dispatch_witness :
    (receive_webhook_alert envInsertFail (mkAlert uuidAlpha)).response ≠
      Except.ok (201, ()) ∧
    (receive_webhook_alert envInsertFail (mkAlert uuidAlpha)).dispatched =
      resultOk (TradeSignal.from_alert_data (mkAlert uuidAlpha) envInsertFail.strategies) :=
  ⟨(C2_record_before_dispatch_amended envInsertFail (mkAlert uuidAlpha)).1 rfl (201, ()),
    (C2_record_before_dispatch_amended envInsertFail (mkAlert uuidAlpha)).2⟩

/-- C3 (counterexample): for a disabled strategy the signal builder does
fail with `StrategyDisabled` and no dispatch happens, but — contrary to the
claim — the alert is NOT durably recorded: the handler aborts on the `?`
before reaching the insert, even though the insert itself would succeed
(`insert_ok = true`). -/
theorem C3_disabled_recorded_counterexample :
    TradeSignal.from_alert_data (mkAlert uuidDis) envDisabled.strategies =
      Except.error (SignalError.strategyDisabled uuidDis) ∧
    envDisabled.insert_ok = true ∧
    (receive_webhook_alert envDisabled (mkAlert uuidDis)).recorded = none ∧
    (receive_webhook_alert envDisabled (mkAlert uuidDis)).dispatched = false :=
  ⟨rfl, rfl, rfl, rfl⟩

/-- C3 (amended): for an alert whose strategy exists but is disabled,
`TradeSignal` construction fails with `StrategyDisabled`, no order is
created (no dispatch task, empty execution trace) and the alert is NOT
durably recorded: ingestion aborts before the insert. -/
theorem C3_disabled_amended (env : IngestEnv) (alert : AlertData) (s : Strategy)
    (hfind : env.strategies.find? (fun t => t.id == alert.strategy_id) = some s)
    (hdis : s.enabled = false) :
    TradeSignal.from_alert_data alert env.strategies =
      Except.error (SignalError.strategyDisabled alert.strategy_id) ∧
    (receive_webhook_alert env alert).response =
      Except.error (ApiError.signal (SignalError.strategyDisabled alert.strategy_id)) ∧
    (receive_webhook_alert env alert).dispatched = false ∧
    (receive_webhook_alert env alert).dispatch_trace = [] ∧
    (receive_webhook_alert env alert).recorded = none := by
  have hfa : TradeSignal.from_alert_data alert env.strategies =
      Except.error (SignalError.strategyDisabled alert.strategy_id) := by
    simp [TradeSignal.from_alert_data, hfind, hdis]
  refine ⟨hfa, ?_, ?_, ?_, ?_⟩ <;> simp [receive_webhook_alert, hfa]

/-- C3 (witness): the amended theorem applied to the concrete
disabled-strategy environment. -/
theorem C3_disabled_witness :
    TradeSignal.from_alert_data (mkAlert uuidDis) envDisabled.strategies =
      Except.error (SignalError.strategyDisabled (mkAlert uuidDis).strategy_id) ∧
    (receive_webhook_alert envDisabled (mkAlert uuidDis)).response =
      Except.error (ApiError.signal
        (SignalError.strategyDisabled (mkAlert uuidDis).strategy_id)) ∧
    (receive_webhook_alert envDisabled (mkAlert uuidDis)).dispatched = false ∧
    (receive_webhook_alert envDisabled (mkAlert uuidDis)).dispatch_trace = [] ∧
    (receive_webhook_alert envDisabled (mkAlert uuidDis)).recorded = none :=
  C3_disabled_amended envDisabled (mkAlert uuidDis) strategyDis rfl rfl

/-- C6: the ingestion response (and what is recorded, and whether a dispatch
task is spawned) is identical across two runs that differ only in the broker
client's execution behaviour: the execution outcome is never fed back into
the ingestion response. -/
theorem C6_response_execution_independent (env : IngestEnv)
    (c1 c2 : TradingClientModel) (alert : AlertData) :
    (receive_webhook_alert { env with client := c1 } alert).response =
      (receive_webhook_alert { env with client := c2 } alert).response ∧
    (receive_webhook_alert { env with client := c1 } alert).recorded =
      (receive_webhook_alert { env with client := c2 } alert).recorded ∧
    (receive_webhook_alert { env with client := c1 } alert).dispatched =
      (receive_webhook_alert { env with client := c2 } alert).dispatched := by
  obtain ⟨strats, cl, ins⟩ := env
  unfold receive_webhook_alert
  cases hfa : TradeSignal.from_alert_data alert strats with
  | error e => simp
  | ok sig => cases h : ins <;> simp

def opsCex : BrokerClientOps :=
  { account_result := Except.ok ⟨0⟩
    asset_result := fun s =>
      if s = "aapl" then Except.ok ⟨"was-lowercase"⟩ else Except.ok ⟨s⟩
    assets_result := fun _ => Except.ok []
    order_result := fun i => Except.ok ⟨i⟩
    orders_result := fun _ => Except.ok []
    positions_result := Except.error (ApiError.broker "positions unavailable") }

def appCex : AppModel := ⟨opsCex⟩

/-- C7 (counterexample): two handlers break the pass-through claim.
`get_positions` never consults the client: even when the client's positions
query would fail, the handler answers `200 OK` with an empty body.
`get_asset` transforms its input: for the query symbol "aapl" it forwards
the upper-cased symbol, so its result differs from the client's result for
the request as received. -/
theorem C7_query_passthrough_counterexample :
    appCex.clients_alpaca.positions_result =
      Except.error (ApiError.broker "positions unavailable") ∧
    get_positions appCex ⟨Broker.alpaca⟩ = Except.ok (200, ()) ∧
    get_asset appCex ⟨Broker.alpaca⟩ ⟨"aapl"⟩ = Except.ok (200, ⟨"AAPL"⟩) ∧
    get_asset appCex ⟨Broker.alpaca⟩ ⟨"aapl"⟩ ≠
      (appCex.clients_alpaca.asset_result "aapl").map (fun a => (200, a)) := by
  refine ⟨rfl, rfl, rfl, ?_⟩
  intro h
  have h2 : (Except.ok (200, (⟨"AAPL"⟩ : Asset)) : Except ApiError (Nat × Asset)) =
      Except.ok (200, (⟨"was-lowercase"⟩ : Asset)) := h
  have h3 := congrArg (fun r => match r with
    | Except.ok (_, a) => a.symbol
    | Except.error _ => "") h2
  simp at h3

/-- C7 (amended): `get_account`, `get_assets`, `get_orders` and `get_order`
forward the request unmodified and return exactly the client's result (or
propagate exactly its error) with no retry; `get_asset` forwards the
upper-cased symbol, not the symbol as received; `get_positions` does not
consult the client at all and unconditionally answers `200 OK` with an
empty body. -/
theorem C7_query_passthrough_amended (app : AppModel) (bq : BrokerQuery)
    (sq : SymbolQuery) (atq : AssetTypeQuery) (id : Uuid) (req : OrdersReq) :
    get_account app bq =
      (bq.broker.get_client app).account_result.map (fun a => (200, a)) ∧
    get_asset app bq sq =
      ((bq.broker.get_client app).asset_result (toUppercase sq.symbol)).map
        (fun a => (200, a)) ∧
    get_assets app bq atq =
      ((bq.broker.get_client app).assets_result atq.class_).map (fun a => (200, a)) ∧
    get_orders app (BrokerOrders.alpacaOrders req) =
      (app.clients_alpaca.orders_result req).map (fun a => (200, a)) ∧
    get_order app bq id =
      ((bq.broker.get_client app).order_result id).map (fun a => (200, a)) ∧
    get_positions app bq = Except.ok (200, ()) := by
  refine ⟨?_, ?_, ?_, ?_, ?_, rfl⟩
  · cases h : (bq.broker.get_client app).account_result with
    | error e => simp [get_account, h, Except.map]
    | ok a => simp [get_account, h, Except.map]
  · cases h : (bq.broker.get_client app).asset_result (toUppercase sq.symbol) with
    | error e => simp [get_asset, h, Except.map]
    | ok a => simp [get_asset, h, Except.map]
  · cases h : (bq.broker.get_client app).assets_result atq.class_ with
    | error e => simp [get_assets, h, Except.map]
    | ok a => simp [get_assets, h, Except.map]
  · cases h : app.clients_alpaca.orders_result req with
    | error e => simp [get_orders, h, Except.map]
    | ok a => simp [get_orders, h, Except.map]
  · cases h : (bq.broker.get_client app).order_result id with
    | error e => simp [get_order, h, Except.map]
    | ok a => simp [get_order, h, Except.map]

/-- C8: the modelled executor creates exactly one order — the client's
`create_order` of the signal's alert — before the first execution attempt,
never creates another, and every `execute_order` call in the retry loop
submits that same order. -/
theorem C8_order_identity_stable (client : TradingClientModel)
    (strategy : Strategy) (event : AlertData) :
    ∃ tr, (execute_trade_signal client strategy event).2 =
        TraceEvent.createOrder (client.create_order event) :: tr ∧
      (∀ o, TraceEvent.createOrder o ∉ tr) ∧
      (∀ o, TraceEvent.executeOrder o ∈ tr → o = client.create_order event) ∧
      TraceEvent.executeOrder (client.create_order event) ∈ tr := by
  have hs := executeLoop_shape client.execute_result strategy.event_retry_delay
    (client.create_order event) (strategy.max_event_retries - 1) 0
  exact ⟨_, rfl, fun o => hs.no_create o, fun o h => hs.exec_eq o h, hs.head_exec⟩

/-- C9: the modelled executor's trace after the single order creation has
the alternating shape execute, sleep, execute, …, execute: every failed
non-final attempt is followed by exactly one sleep of the strategy's
configured `event_retry_delay` before the next attempt, and every sleep in
the trace has exactly that duration. -/
theorem C9_retry_delay_honored (client : TradingClientModel)
    (strategy : Strategy) (event : AlertData) :
    ∃ tr, (execute_trade_signal client strategy event).2 =
        TraceEvent.createOrder (client.create_order event) :: tr ∧
      RetryShape (client.create_order event) strategy.event_retry_delay tr ∧
      (∀ d, TraceEvent.sleep d ∈ tr → d = strategy.event_retry_delay) := by
  have hs := executeLoop_shape client.execute_result strategy.event_retry_delay
    (client.create_order event) (strategy.max_event_retries - 1) 0
  exact ⟨_, rfl, hs, fun d h => hs.sleep_eq d h⟩

/-- C10: `find_strategy` is exactly a first-match lookup by id over the
configuration list: it returns `none` iff no configured strategy carries the
queried id; any hit carries the queried id; with duplicates the earliest
configured strategy wins; and the lookup never consults the `enabled` flag —
rewriting every strategy's flag commutes with the lookup. -/
theorem C10_find_strategy_first_match (m : StrategyManager) (sid : Uuid) :
    (m.find_strategy sid = none ↔ ∀ s ∈ m.strategies, s.id ≠ sid) ∧
    (∀ s, m.find_strategy sid = some s → s.id = sid) ∧
    (∀ l1 l2 s, m.strategies = l1 ++ s :: l2 → s.id = sid →
      (∀ t ∈ l1, t.id ≠ sid) → m.find_strategy sid = some s) ∧
    (∀ f : Strategy → Bool,
      StrategyManager.find_strategy
          ⟨m.strategies.map (fun s => { s with enabled := f s })⟩ sid =
        (m.find_strategy sid).map (fun s => { s with enabled := f s })) := by
  refine ⟨?_, ?_, ?_, ?_⟩
  · unfold StrategyManager.find_strategy
    rw [List.find?_eq_none]
    constructor
    · intro h s hs
      simpa using h s hs
    · intro h s hs
      simpa using h s hs
  · intro s hs
    unfold StrategyManager.find_strategy at hs
    have := List.find?_some hs
    simpa using this
  · intro l1 l2 s hsplit hid hl1
    unfold StrategyManager.find_strategy
    rw [hsplit, List.find?_append]
    have h1 : l1.find? (fun strategy => strategy.id == sid) = none := by
      rw [List.find?_eq_none]
      intro t ht
      simpa using hl1 t ht
    have h2 : (s :: l2).find? (fun strategy => strategy.id == sid) = some s :=
      List.find?_cons_of_pos l2 (by simpa using hid)
    rw [h1, h2]
    rfl
  · intro f
    unfold StrategyManager.find_strategy
    rw [List.find?_map]
    rfl

def strategyDupFirst : Strategy :=
  { id := uuidDup, name := "dup-first", enabled := false, broker := Broker.alpaca
    max_event_retries := 0, event_retry_delay := 0 }

def strategyDupSecond : Strategy :=
  { id := uuidDup, name := "dup-second", enabled := true, broker := Broker.alpaca
    max_event_retries := 3, event_retry_delay := 2 }

def mgrDup : StrategyManager := ⟨[strategyDupFirst, strategyDupSecond]⟩

/-- C10 (witness): with two strategies sharing the id `uuidDup`, the
earliest configured one wins even though it is disabled. -/
theorem C10_find_strategy_first_match_witness :
    mgrDup.find_strategy uuidDup = some strategyDupFirst :=
  (C10_find_strategy_first_match mgrDup uuidDup).2.2.1 [] [strategyDupSecond]
    strategyDupFirst rfl rfl (by simp)

/-- C8 (witness): the order-stability statement instantiated at a concrete
client, strategy and alert. -/
theorem C8_order_identity_stable_witness :
    ∃ tr, (execute_trade_signal clientStub1 strategyWit (mkAlert uuidAlpha)).2 =
        TraceEvent.createOrder (clientStub1.create_order (mkAlert uuidAlpha)) :: tr ∧
      (∀ o, TraceEvent.createOrder o ∉ tr) ∧
      (∀ o, TraceEvent.executeOrder o ∈ tr →
        o = clientStub1.create_order (mkAlert uuidAlpha)) ∧
      TraceEvent.executeOrder (clientStub1.create_order (mkAlert uuidAlpha)) ∈ tr :=
  C8_order_identity_stable clientStub1 strategyWit (mkAlert uuidAlpha)

/-- C9 (witness): the retry-delay statement instantiated at a concrete
client, strategy and alert. -/
theorem C9_retry_delay_honored_witness :
    ∃ tr, (execute_trade_signal clientStub1 strategyWit (mkAlert uuidAlpha)).2 =
        TraceEvent.createOrder (clientStub1.create_order (mkAlert uuidAlpha)) :: tr ∧
      RetryShape (clientStub1.create_order (mkAlert uuidAlpha))
        strategyWit.event_retry_delay tr ∧
      (∀ d, TraceEvent.sleep d ∈ tr → d = strategyWit.event_retry_delay) :=
  C9_retry_delay_honored clientStub1 strategyWit (mkAlert uuidAlpha)
